import Mathlib

/-!
Shallow embedding of the TinyAda syntax front end (src/Scanner.py and
src/Parser.py).

The character source (`Chario`) is embedded as a `List Char` of remaining
input characters; `PeekNextChar`/`GetNextChar` become list head/tail, with
the end of the list playing the role of the "EOF" sentinel string.
Diagnostics sent through `Chario.PrintErrorMessage` are collected in a list
of strings.  Python's `raise RuntimeError` is embedded as an explicit error
result, and since the parser's loops are driven by an unbounded token
stream, every parser procedure takes a fuel argument; exhausting the fuel
yields a distinguished `spin` result that no handler can catch, standing
for non-termination of the Python code.
-/

/-- A token, as built by `Token(code, value)` throughout src/Scanner.py:
`code` is the token's category string and `value` its lexeme (None for
reserved words and operator symbols). -/
structure Token where
  code : String
  value : Option String
deriving Repr, DecidableEq

namespace Token

/-- Modelled from the spec: Token.py is not under src/.  The spec (§3) fixes
the closed token-category enumeration; the Scanner builds reserved-word and
operator tokens whose `code` is the spelled-out text itself, identifiers as
`"id"` and integer literals as `"int"`, so the `Token.X` category constants
used by src/Parser.py are the corresponding spellings.  Newline is its own
category (spec §3 lists `newline` among the symbol categories). -/
def NEWLINE : String := "\n"

/-- Modelled from the spec, as `Token.NEWLINE`. -/
def IS : String := "is"

/-- Modelled from the spec, as `Token.NEWLINE`. -/
def LOOP : String := "loop"

/-- Modelled from the spec, as `Token.NEWLINE`. -/
def SEMICOLON : String := ";"

/-- Modelled from the spec, as `Token.NEWLINE`. -/
def BEGIN : String := "begin"

/-- Modelled from the spec, as `Token.NEWLINE`. -/
def END : String := "end"

/-- Modelled from the spec, as `Token.NEWLINE`. -/
def ID : String := "id"

/-- Modelled from the spec, as `Token.NEWLINE`. -/
def TYPE : String := "type"

/-- Modelled from the spec, as `Token.NEWLINE`. -/
def PROC : String := "procedure"

/-- Modelled from the spec, as `Token.NEWLINE`. -/
def CONSTANT : String := "constant"

/-- Modelled from the spec, as `Token.NEWLINE`. -/
def COLON : String := ":"

/-- Modelled from the spec, as `Token.NEWLINE`. -/
def COLON_EQ : String := ":="

/-- Modelled from the spec, as `Token.NEWLINE`. -/
def COMMA : String := ","

/-- Modelled from the spec, as `Token.NEWLINE`. -/
def PARENTHESIS_OPEN : String := "("

/-- Modelled from the spec, as `Token.NEWLINE`. -/
def PARENTHESIS_CLOSE : String := ")"

/-- Modelled from the spec, as `Token.NEWLINE`. -/
def RANGE : String := "range"

/-- Modelled from the spec, as `Token.NEWLINE`. -/
def ARRAY : String := "array"

/-- Modelled from the spec, as `Token.NEWLINE`. -/
def OF : String := "of"

/-- Modelled from the spec, as `Token.NEWLINE`. -/
def DOT_DOT : String := ".."

/-- Modelled from the spec, as `Token.NEWLINE`. -/
def IN : String := "in"

/-- Modelled from the spec, as `Token.NEWLINE`. -/
def OUT : String := "out"

/-- Modelled from the spec, as `Token.NEWLINE`. -/
def IF : String := "if"

/-- Modelled from the spec, as `Token.NEWLINE`. -/
def WHILE : String := "while"

/-- Modelled from the spec, as `Token.NEWLINE`. -/
def ELSIF : String := "elsif"

/-- Modelled from the spec, as `Token.NEWLINE`. -/
def ELSE : String := "else"

/-- Modelled from the spec, as `Token.NEWLINE`. -/
def THEN : String := "then"

/-- Modelled from the spec, as `Token.NEWLINE`. -/
def NULL : String := "null"

/-- Modelled from the spec, as `Token.NEWLINE`. -/
def EXIT : String := "exit"

/-- Modelled from the spec, as `Token.NEWLINE`. -/
def WHEN : String := "when"

/-- Modelled from the spec, as `Token.NEWLINE`. -/
def NOT : String := "not"

/-- Modelled from the spec, as `Token.NEWLINE`. -/
def AND : String := "and"

/-- Modelled from the spec, as `Token.NEWLINE`. -/
def OR : String := "or"

/-- Modelled from the spec, as `Token.NEWLINE`: the category of `**`
(`Token.SQUARE` in src/Parser.py). -/
def SQUARE : String := "**"

/-- Modelled from the spec, as `Token.NEWLINE`: the integer-literal
category, spelled `"int"` by `Scanner.IntegerToken` (src/Scanner.py). -/
def numericalLiteral : String := "int"

/-- Modelled from the spec, as `Token.NEWLINE`: the string-literal category
(spec §3; the Scanner in src/ never produces it). -/
def stringLiteral : String := "string"

/-- Modelled from the spec: Token.py is not under src/.  The spec (§6)
describes closed "declaration-start categories" used for dispatch;
`Parser.basicDeclaration` (src/Parser.py) dispatches on exactly
`Token.ID`, `Token.TYPE` and `Token.PROC`. -/
def basicDeclarationHandles : List String := [ID, TYPE, PROC]

/-- Modelled from the spec (§6 "relational operators"), with the spellings
produced by `Scanner.OperatorToken`. -/
def relationalOperator : List String := ["=", "/=", "<", "<=", ">", ">="]

/-- Modelled from the spec (§6 "adding operators"). -/
def addingOperator : List String := ["+", "-"]

/-- Modelled from the spec (§6 "multiplying operators"), with `mod` the
only alphabetic one (spec §3). -/
def multiplyingOperator : List String := ["*", "/", "mod"]

end Token

/-- Modelled from the spec: Token.py's `__str__` is not under src/ and the
spec (§6) says the exact `<token-description>` wording is not a
compatibility contract; we render the category plus the lexeme when one is
present. -/
def tokenStr (t : Token) : String :=
  match t.value with
  | some v => t.code ++ "(" ++ v ++ ")"
  | none => t.code

/-- Modelled from the spec: Python default equality between a `Token`
instance and a `str`.  Token.py is not under src/; the spec (§3) defines a
Token as an immutable record of category and lexeme and defines no equality
between a Token and a bare category string, so the comparison (as evaluated
by `self.token in Token.multiplyingOperator` at src/Parser.py line 473,
where `Token.multiplyingOperator` holds category strings) is always
`False`. -/
def pyEqTokenString (_t : Token) (_s : String) : Bool := false

/-! ## Scanner (src/Scanner.py) -/

/-- Modelled from the spec: consts.py is not under src/.  The union
`pd.concat((reserved, basicDeclarationHandles, statementHandles,
stringOperator))` used by `Scanner.AlphabeticToken` is the spec's (§3)
closed list of reserved words. -/
def reservedWords : List String :=
  ["is", "begin", "end", "if", "while", "loop", "procedure", "type",
   "range", "array", "of", "constant", "in", "out", "not", "and", "or",
   "mod", "null", "exit", "when", "then", "else", "elsif"]

/-- The delimiter tuple of `Scanner.AlphabeticToken` (src/Scanner.py line
36); its `"EOF"` member is the end of the character list here. -/
def delimiters : List Char :=
  [' ', '\n', '\r', '\t', '\\', ',', ':', '<', '>', '=', ';',
   '+', '-', '*', '/', '(', ')']

/-- `Scanner.IntegerToken`: consume the leading run of digits and return it
as an `"int"` token. -/
def IntegerToken (cs : List Char) : Token × List Char :=
  (Token.mk "int" (some (String.mk (cs.takeWhile Char.isDigit))),
   cs.dropWhile Char.isDigit)

/-- `Scanner.AlphabeticToken`: consume characters up to the first delimiter
(or the end of input) and classify the text as a reserved word or an
identifier. -/
def AlphabeticToken (cs : List Char) : Token × List Char :=
  let result := String.mk (cs.takeWhile (fun c => !delimiters.contains c))
  let rest := cs.dropWhile (fun c => !delimiters.contains c)
  if reservedWords.contains result then (Token.mk result none, rest)
  else (Token.mk "id" (some result), rest)

/-- The `singleCharOperators` tuple of `Scanner.OperatorToken`. -/
def singleCharOperators : List Char := ['+', '-', ';', '(', ')', ',']

/-- The `possiblyDoubleCharOperators` tuple of `Scanner.OperatorToken`. -/
def possiblyDoubleCharOperators : List Char := ['/', ':', '>', '<', '*']

/-- The `doubleCharOperators` tuple of `Scanner.OperatorToken`. -/
def doubleCharOperators : List String := ["/=", ":=", "<=", ">=", "**"]

/-- `Scanner.OperatorToken`: scan an operator symbol.  A lexical error
(`chario.PrintErrorMessage` followed by `raise RuntimeError`) is the
`.error` case, carrying the printed message and the remaining characters
(the offending character was already consumed by `GetNextChar`).  The
empty-input case cannot be reached from `GetNextToken`. -/
def OperatorToken : List Char → Except (String × List Char) (Token × List Char)
  | [] => .error ("Unexpected symbol 'EOF'", [])
  | firstChar :: cs =>
    if firstChar == '.' && cs.head? == some '.' then
      .ok (Token.mk ".." none, cs.tail)
    else if singleCharOperators.contains firstChar then
      .ok (Token.mk (String.mk [firstChar]) none, cs)
    else if possiblyDoubleCharOperators.contains firstChar then
      match cs with
      | secondChar :: rest =>
        if doubleCharOperators.contains (String.mk [firstChar, secondChar]) then
          .ok (Token.mk (String.mk [firstChar, secondChar]) none, rest)
        else .ok (Token.mk (String.mk [firstChar]) none, secondChar :: rest)
      | [] => .ok (Token.mk (String.mk [firstChar]) none, [])
    else
      .error ("Unexpected symbol '" ++ String.mk [firstChar] ++ "'", cs)

/-- The `ignoredCharacters` tuple of `Scanner.GetNextToken` (src/Scanner.py
line 94).  Note that it contains the newline character. -/
def ignoredCharacters : List Char := [' ', '\n', '\r', '\t', '\\']

/-- `Scanner.GetNextToken`: skip ignored characters, return the `"EOF"`
token at the end of input, and otherwise dispatch on the first character's
class. -/
def GetNextToken (cs : List Char) : Except (String × List Char) (Token × List Char) :=
  match cs.dropWhile (fun c => ignoredCharacters.contains c) with
  | [] => .ok (Token.mk "EOF" none, [])
  | c :: rest =>
    if c.isAlpha then .ok (AlphabeticToken (c :: rest))
    else if c.isDigit then .ok (IntegerToken (c :: rest))
    else OperatorToken (c :: rest)

/-! ## Parser state and results (src/Parser.py) -/

/-- The mutable state threaded through the Parser's methods: the remaining
input characters (owned by the Chario/Scanner), the diagnostics printed so
far through `Chario.PrintErrorMessage`, and the single lookahead
`self.token`. -/
structure PState where
  chars : List Char
  diags : List String
  token : Token
deriving Repr, DecidableEq

/-- Result of running a Parser method: normal return, a raised
`RuntimeError` (carrying the state at the raise), or `spin`, produced only
when the fuel runs out, standing for non-termination of the Python code
(no `except` clause can observe it). -/
inductive R (α : Type) where
  | ok : α → PState → R α
  | err : PState → R α
  | spin : PState → R α
deriving Repr, DecidableEq

/-- Sequencing: run the continuation on a normal return, propagate a raised
error or non-termination. -/
def R.bind {α β : Type} : R α → (α → PState → R β) → R β
  | .ok a s, f => f a s
  | .err s, _ => .err s
  | .spin s, _ => .spin s

/-- A Python `try`/`except RuntimeError` (or bare `except`) around a call:
the handler receives the state at the raise; non-termination passes
through. -/
def R.catch {α : Type} : R α → (PState → R α) → R α
  | .err s, h => h s
  | r, _ => r

/-- Whether the result is the out-of-fuel marker. -/
def R.isSpin {α : Type} : R α → Bool
  | .spin _ => true
  | _ => false

/-- Whether the result is a normal return. -/
def R.isOk {α : Type} : R α → Bool
  | .ok _ _ => true
  | _ => false

/-- The state carried by a result, whichever way the run ended. -/
def R.state {α : Type} : R α → PState
  | .ok _ s => s
  | .err s => s
  | .spin s => s

/-- `self.token = self.scanner.GetNextToken()`: on success install the new
lookahead; on a lexical error the diagnostic was printed and the
`RuntimeError` propagates, the lookahead left unchanged. -/
def advance (s : PState) : R Unit :=
  match GetNextToken s.chars with
  | .ok (t, cs) => .ok () { s with chars := cs, token := t }
  | .error (msg, cs) => .err { s with chars := cs, diags := s.diags ++ [msg] }

/-- `Parser.ignore_newlines`: drop newline tokens from the lookahead. -/
def ignore_newlines : Nat → PState → R Unit
  | 0, s => .spin s
  | n + 1, s =>
    if s.token.code == Token.NEWLINE then
      (advance s).bind fun _ s1 => ignore_newlines n s1
    else .ok () s

/-- The `while` loop of `Parser.discard_tokens`: consume tokens while the
lookahead is not a newline, then `ignore_newlines`.  (The discarded-token
message goes to `print`, not to the diagnostic sink, so it is not
tracked.) -/
def discardLoop : Nat → PState → R Unit
  | 0, s => .spin s
  | n + 1, s =>
    if s.token.code != Token.NEWLINE then
      (advance s).bind fun _ s1 => discardLoop n s1
    else ignore_newlines n s

/-- `Parser.discard_tokens`: unconditionally consume one token, then
discard up to and including a newline and skip further newlines. -/
def discard_tokens : Nat → PState → R Unit
  | 0, s => .spin s
  | n + 1, s => (advance s).bind fun _ s1 => discardLoop n s1

/-- `Parser.fatalError`: print the message through the Chario, run
phrase-level discard, and raise `RuntimeError`. -/
def fatalError : Nat → String → PState → R Unit
  | 0, _, s => .spin s
  | n + 1, error_message, s =>
    (discard_tokens n { s with diags := s.diags ++ [error_message] }).bind
      fun _ s1 => .err s1

/-- The message `Parser.accept` builds at src/Parser.py line 71, replacing
its caller's `error_message` argument. -/
def mkAcceptMsg (expected : String) (t : Token) : String :=
  "expected [" ++ expected ++ "] but " ++ tokenStr t ++ " was detected"

/-- The `line_terminating_tokens` tuple of `Parser.accept`. -/
def line_terminating_tokens : List String := [Token.IS, Token.LOOP, Token.SEMICOLON]

/-- The part of `Parser.accept` after the newline guard: skip newlines,
compare the lookahead against the expected code, consume it on a match,
and skip trailing newlines after a line-terminating code. -/
def acceptTail (n : Nat) (expected : String) (error_message : String) (s : PState) : R Unit :=
  (ignore_newlines n s).bind fun _ s1 =>
    if s1.token.code != expected then fatalError n error_message s1
    else
      (advance s1).bind fun _ s2 =>
        if line_terminating_tokens.contains expected then ignore_newlines n s2
        else .ok () s2

/-- `Parser.accept`: overwrite the caller's `error_message`, treat a
newline lookahead as a hard mismatch when a line-terminating code is
expected, and otherwise proceed with `acceptTail`. -/
def accept : Nat → String → String → PState → R Unit
  | 0, _, _, s => .spin s
  | n + 1, expected, _error_message, s =>
    let error_message := mkAcceptMsg expected s.token
    if s.token.code == Token.NEWLINE && line_terminating_tokens.contains expected then
      fatalError n error_message s
    else acceptTail n expected error_message s

/-! ## Recursive-descent grammar rules (src/Parser.py)

Every rule takes a fuel argument first; `while` loops of the source become
auxiliary `...Loop` functions on the same fuel. -/

mutual

/-- `Parser.expression`: a relation, then a chain of `and` relations or a
chain of `or` relations. -/
def expression : Nat → PState → R Unit
  | 0, s => .spin s
  | n + 1, s =>
    (relation n s).bind fun _ s1 =>
      if s1.token.code == Token.AND then expressionAndLoop n s1
      else if s1.token.code == Token.OR then expressionOrLoop n s1
      else .ok () s1

/-- The `while self.token.code == Token.AND` loop of `Parser.expression`. -/
def expressionAndLoop : Nat → PState → R Unit
  | 0, s => .spin s
  | n + 1, s =>
    if s.token.code == Token.AND then
      (advance s).bind fun _ s1 =>
        (relation n s1).bind fun _ s2 => expressionAndLoop n s2
    else .ok () s

/-- The `while self.token.code == Token.OR` loop of `Parser.expression`. -/
def expressionOrLoop : Nat → PState → R Unit
  | 0, s => .spin s
  | n + 1, s =>
    if s.token.code == Token.OR then
      (advance s).bind fun _ s1 =>
        (relation n s1).bind fun _ s2 => expressionOrLoop n s2
    else .ok () s

/-- `Parser.relation`: a simple expression, optionally followed by a
relational operator and a second simple expression. -/
def relation : Nat → PState → R Unit
  | 0, s => .spin s
  | n + 1, s =>
    (simpleExpression n s).bind fun _ s1 =>
      if Token.relationalOperator.contains s1.token.code then
        (advance s1).bind fun _ s2 => simpleExpression n s2
      else .ok () s1

/-- `Parser.simpleExpression`: an optional sign, a term, then further
adding-operator/term pairs. -/
def simpleExpression : Nat → PState → R Unit
  | 0, s => .spin s
  | n + 1, s =>
    (if Token.addingOperator.contains s.token.code then advance s
     else .ok () s).bind fun _ s1 =>
      (term n s1).bind fun _ s2 => simpleExpressionLoop n s2

/-- The `while self.token.code in Token.addingOperator` loop of
`Parser.simpleExpression`. -/
def simpleExpressionLoop : Nat → PState → R Unit
  | 0, s => .spin s
  | n + 1, s =>
    if Token.addingOperator.contains s.token.code then
      (advance s).bind fun _ s1 =>
        (term n s1).bind fun _ s2 => simpleExpressionLoop n s2
    else .ok () s

/-- `Parser.term`: a factor, then the `while self.token in
Token.multiplyingOperator` loop — the membership test compares the Token
object itself (not `self.token.code`, src/Parser.py line 473) against the
operator code strings. -/
def term : Nat → PState → R Unit
  | 0, s => .spin s
  | n + 1, s => (factor n s).bind fun _ s1 => termLoop n s1

/-- The loop of `Parser.term`, guarded by
`self.token in Token.multiplyingOperator`. -/
def termLoop : Nat → PState → R Unit
  | 0, s => .spin s
  | n + 1, s =>
    if Token.multiplyingOperator.any (fun op => pyEqTokenString s.token op) then
      (advance s).bind fun _ s1 =>
        (factor n s1).bind fun _ s2 => termLoop n s2
    else .ok () s

/-- `Parser.factor`: either `not` followed by a primary, or a primary
optionally followed by `**` and a second primary. -/
def factor : Nat → PState → R Unit
  | 0, s => .spin s
  | n + 1, s =>
    if s.token.code == Token.NOT then
      (advance s).bind fun _ s1 => primary n s1
    else
      (primary n s).bind fun _ s1 =>
        if s1.token.code == Token.SQUARE then
          (advance s1).bind fun _ s2 => primary n s2
        else .ok () s1

/-- `Parser.primary`: a literal, a name, or a parenthesised expression;
anything else is a fatal error. -/
def primary : Nat → PState → R Unit
  | 0, s => .spin s
  | n + 1, s =>
    if s.token.code == Token.numericalLiteral || s.token.code == Token.stringLiteral then
      advance s
    else if s.token.code == Token.ID then name n s
    else if s.token.code == Token.PARENTHESIS_OPEN then
      (advance s).bind fun _ s1 =>
        (expression n s1).bind fun _ s2 =>
          accept n Token.PARENTHESIS_CLOSE "')' expected" s2
    else
      fatalError n
        ("expected either a numeric literal, an identifier, or an opening parenthesis but "
          ++ tokenStr s.token ++ " was detected") s

/-- `Parser.name`: an identifier, optionally followed by an indexed
component. -/
def name : Nat → PState → R Unit
  | 0, s => .spin s
  | n + 1, s =>
    (accept n Token.ID "identifier expected" s).bind fun _ s1 =>
      if s1.token.code == Token.PARENTHESIS_OPEN then indexedComponent n s1
      else .ok () s1

/-- `Parser.indexedComponent`: a parenthesised comma-separated expression
list. -/
def indexedComponent : Nat → PState → R Unit
  | 0, s => .spin s
  | n + 1, s =>
    (accept n Token.PARENTHESIS_OPEN "'(' expected" s).bind fun _ s1 =>
      (expression n s1).bind fun _ s2 =>
        (indexedComponentLoop n s2).bind fun _ s3 =>
          accept n Token.PARENTHESIS_CLOSE "')' expected" s3

/-- The `while self.token.code == Token.COMMA` loop of
`Parser.indexedComponent`. -/
def indexedComponentLoop : Nat → PState → R Unit
  | 0, s => .spin s
  | n + 1, s =>
    if s.token.code == Token.COMMA then
      (advance s).bind fun _ s1 =>
        (expression n s1).bind fun _ s2 => indexedComponentLoop n s2
    else .ok () s

end

/-- `Parser.condition`: just an expression. -/
def condition (n : Nat) (s : PState) : R Unit := expression n s

/-- The `while self.token.code == Token.COMMA` loop of
`Parser.actualParameterPart`. -/
def actualParameterPartLoop : Nat → PState → R Unit
  | 0, s => .spin s
  | n + 1, s =>
    if s.token.code == Token.COMMA then
      (advance s).bind fun _ s1 =>
        (expression n s1).bind fun _ s2 => actualParameterPartLoop n s2
    else .ok () s

/-- `Parser.actualParameterPart`: a parenthesised comma-separated
expression list. -/
def actualParameterPart (n : Nat) (s : PState) : R Unit :=
  (accept n Token.PARENTHESIS_OPEN "open parenthesis expected" s).bind fun _ s1 =>
    (expression n s1).bind fun _ s2 =>
      (actualParameterPartLoop n s2).bind fun _ s3 =>
        accept n Token.PARENTHESIS_CLOSE "close parenthesis expected" s3

/-- The `while self.token.code == Token.COMMA` loop of
`Parser.identifierList`. -/
def identifierListLoop : Nat → PState → R Unit
  | 0, s => .spin s
  | n + 1, s =>
    if s.token.code == Token.COMMA then
      (advance s).bind fun _ s1 =>
        (accept n Token.ID "identifier expected" s1).bind fun _ s2 =>
          identifierListLoop n s2
    else .ok () s

/-- `Parser.identifierList`: one identifier, then comma-separated further
identifiers. -/
def identifierList (n : Nat) (s : PState) : R Unit :=
  (accept n Token.ID "identifier expected" s).bind fun _ s1 =>
    identifierListLoop n s1

/-- `Parser.mode`: an optional `in`, then an optional `out`. -/
def mode (s : PState) : R Unit :=
  (if s.token.code == Token.IN then advance s else .ok () s).bind fun _ s1 =>
    if s1.token.code == Token.OUT then advance s1 else .ok () s1

/-- `Parser.nullStatement`. -/
def nullStatement (n : Nat) (s : PState) : R Unit :=
  (accept n Token.NULL "null expected" s).bind fun _ s1 =>
    accept n Token.SEMICOLON "semicolon expected" s1

/-- `Parser.assignmentStatement`. -/
def assignmentStatement (n : Nat) (s : PState) : R Unit :=
  (accept n Token.COLON_EQ ":= expected" s).bind fun _ s1 =>
    (expression n s1).bind fun _ s2 =>
      accept n Token.SEMICOLON "semicolon expected" s2

/-- `Parser.exitStatement`. -/
def exitStatement (n : Nat) (s : PState) : R Unit :=
  (accept n Token.EXIT "exit expected" s).bind fun _ s1 =>
    (if s1.token.code == Token.WHEN then
       (advance s1).bind fun _ s2 => condition n s2
     else .ok () s1).bind fun _ s3 =>
      accept n Token.SEMICOLON "semicolon expected" s3

/-- `Parser.procedureCallStatement`. -/
def procedureCallStatement (n : Nat) (s : PState) : R Unit :=
  (if s.token.code == Token.PARENTHESIS_OPEN then actualParameterPart n s
   else .ok () s).bind fun _ s1 =>
    accept n Token.SEMICOLON "semicolon expected" s1

/-- `Parser.iterationScheme`. -/
def iterationScheme (n : Nat) (s : PState) : R Unit :=
  (accept n Token.WHILE "while expected" s).bind fun _ s1 => condition n s1

/-- `Parser.nameStatement`: a name, then either an assignment or a
procedure call, dispatched on `:=`. -/
def nameStatement (n : Nat) (s : PState) : R Unit :=
  (name n s).bind fun _ s1 =>
    if s1.token.code == Token.COLON_EQ then assignmentStatement n s1
    else procedureCallStatement n s1

/-- `Parser.simpleStatement`: dispatch on `null` / `exit` / name. -/
def simpleStatement (n : Nat) (s : PState) : R Unit :=
  if s.token.code == Token.NULL then nullStatement n s
  else if s.token.code == Token.EXIT then exitStatement n s
  else nameStatement n s

mutual

/-- `Parser.sequenceOfStatements`: one statement, then statements until the
lookahead is `end`, `elsif` or `else`. -/
def sequenceOfStatements : Nat → PState → R Unit
  | 0, s => .spin s
  | n + 1, s =>
    (statement n s).bind fun _ s1 => sequenceOfStatementsLoop n s1

/-- The `while self.token.code not in (Token.END, Token.ELSIF, Token.ELSE)`
loop of `Parser.sequenceOfStatements`. -/
def sequenceOfStatementsLoop : Nat → PState → R Unit
  | 0, s => .spin s
  | n + 1, s =>
    if !([Token.END, Token.ELSIF, Token.ELSE].contains s.token.code) then
      (statement n s).bind fun _ s1 => sequenceOfStatementsLoop n s1
    else .ok () s

/-- `Parser.statement`: dispatch to a compound or a simple statement, the
whole call wrapped in a bare `except` that swallows any raised error and
continues with the next statement. -/
def statement : Nat → PState → R Unit
  | 0, s => .spin s
  | n + 1, s =>
    (if [Token.IF, Token.WHILE, Token.LOOP].contains s.token.code then
       compoundStatement n s
     else simpleStatement n s).catch fun s1 => .ok () s1

/-- `Parser.compoundStatement`: dispatch on `if`. -/
def compoundStatement : Nat → PState → R Unit
  | 0, s => .spin s
  | n + 1, s =>
    if s.token.code == Token.IF then ifStatement n s else loopStatement n s

/-- `Parser.ifStatement`. -/
def ifStatement : Nat → PState → R Unit
  | 0, s => .spin s
  | n + 1, s =>
    (accept n Token.IF "if expected" s).bind fun _ s1 =>
      (condition n s1).bind fun _ s2 =>
        (accept n Token.THEN "then expected" s2).bind fun _ s3 =>
          (sequenceOfStatements n s3).bind fun _ s4 =>
            (ifStatementElsifLoop n s4).bind fun _ s5 =>
              (if s5.token.code == Token.ELSE then
                 (advance s5).bind fun _ s6 => sequenceOfStatements n s6
               else .ok () s5).bind fun _ s7 =>
                (accept n Token.END "end expected" s7).bind fun _ s8 =>
                  (accept n Token.IF "if expected" s8).bind fun _ s9 =>
                    accept n Token.SEMICOLON "semicolon expected" s9

/-- The `while self.token.code == Token.ELSIF` loop of
`Parser.ifStatement`. -/
def ifStatementElsifLoop : Nat → PState → R Unit
  | 0, s => .spin s
  | n + 1, s =>
    if s.token.code == Token.ELSIF then
      (advance s).bind fun _ s1 =>
        (condition n s1).bind fun _ s2 =>
          (accept n Token.THEN "then expected" s2).bind fun _ s3 =>
            (sequenceOfStatements n s3).bind fun _ s4 =>
              ifStatementElsifLoop n s4
    else .ok () s

/-- `Parser.loopStatement`: the optional iteration scheme and `loop` are
tried with a catch that continues into the statement sequence; the closing
`end loop ;` is tried with a catch that gives up. -/
def loopStatement : Nat → PState → R Unit
  | 0, s => .spin s
  | n + 1, s =>
    (((if s.token.code == Token.WHILE then iterationScheme n s
       else .ok () s).bind fun _ s1 =>
        accept n Token.LOOP "loop expected" s1).catch fun sc =>
          .ok () sc).bind fun _ s2 =>
      (sequenceOfStatements n s2).bind fun _ s3 =>
        ((accept n Token.END "end expected" s3).bind fun _ s4 =>
          (accept n Token.LOOP "loop expected" s4).bind fun _ s5 =>
            accept n Token.SEMICOLON "semicolon expected" s5).catch fun sc =>
          .ok () sc

end

/-! ## Declarations (src/Parser.py) -/

/-- `Parser.range`: `range simpleExpression .. simpleExpression` (the
source passes a `'is' expected` message that `accept` overwrites
anyway). -/
def range (n : Nat) (s : PState) : R Unit :=
  (accept n Token.RANGE ("'" ++ Token.IS ++ "' expected") s).bind fun _ s1 =>
    (simpleExpression n s1).bind fun _ s2 =>
      (accept n Token.DOT_DOT ("'" ++ Token.DOT_DOT ++ "' expected") s2).bind fun _ s3 =>
        simpleExpression n s3

/-- `Parser.index`: a range or a type name. -/
def index (n : Nat) (s : PState) : R Unit :=
  if s.token.code == Token.RANGE then range n s
  else if s.token.code == Token.ID then name n s
  else fatalError n "error in indexing" s

/-- `Parser.enumerationTypeDefinition`. -/
def enumerationTypeDefinition (n : Nat) (s : PState) : R Unit :=
  (accept n Token.PARENTHESIS_OPEN ("'" ++ Token.PARENTHESIS_OPEN ++ "' expected") s).bind
    fun _ s1 =>
      (identifierList n s1).bind fun _ s2 =>
        accept n Token.PARENTHESIS_CLOSE ("'" ++ Token.PARENTHESIS_CLOSE ++ "' expected") s2

/-- The `while self.token.code == Token.COMMA` loop of
`Parser.arrayTypeDefinition`. -/
def arrayTypeDefinitionLoop : Nat → PState → R Unit
  | 0, s => .spin s
  | n + 1, s =>
    if s.token.code == Token.COMMA then
      (advance s).bind fun _ s1 =>
        (index n s1).bind fun _ s2 => arrayTypeDefinitionLoop n s2
    else .ok () s

/-- `Parser.arrayTypeDefinition`. -/
def arrayTypeDefinition (n : Nat) (s : PState) : R Unit :=
  (accept n Token.ARRAY ("'" ++ Token.ARRAY ++ "' expected") s).bind fun _ s1 =>
    (accept n Token.PARENTHESIS_OPEN ("'" ++ Token.PARENTHESIS_OPEN ++ "' expected") s1).bind
      fun _ s2 =>
        (index n s2).bind fun _ s3 =>
          (arrayTypeDefinitionLoop n s3).bind fun _ s4 =>
            (accept n Token.PARENTHESIS_CLOSE
                ("'" ++ Token.PARENTHESIS_CLOSE ++ "' expected") s4).bind fun _ s5 =>
              (accept n Token.OF ("'" ++ Token.OF ++ "' expected") s5).bind fun _ s6 =>
                name n s6

/-- `Parser.typeDefinition`: dispatch on `(` / `array` / `range` /
identifier, a fatal error otherwise. -/
def typeDefinition (n : Nat) (s : PState) : R Unit :=
  if s.token.code == Token.PARENTHESIS_OPEN then enumerationTypeDefinition n s
  else if s.token.code == Token.ARRAY then arrayTypeDefinition n s
  else if s.token.code == Token.RANGE then range n s
  else if s.token.code == Token.ID then name n s
  else
    fatalError n
      ("expected either an opening parenthesis, an array, a range, or an identifier but "
        ++ tokenStr s.token ++ " was detected") s

/-- `Parser.objectDeclaration`. -/
def objectDeclaration (n : Nat) (s : PState) : R Unit :=
  (typeDefinition n s).bind fun _ s1 =>
    accept n Token.SEMICOLON ("'" ++ Token.SEMICOLON ++ "' expected") s1

/-- `Parser.numberDeclaration`. -/
def numberDeclaration (n : Nat) (s : PState) : R Unit :=
  (accept n Token.CONSTANT "'constant' expected" s).bind fun _ s1 =>
    (accept n Token.COLON_EQ ("'" ++ Token.COLON_EQ ++ "' expected") s1).bind fun _ s2 =>
      (expression n s2).bind fun _ s3 =>
        accept n Token.SEMICOLON ("'" ++ Token.SEMICOLON ++ "' expected") s3

/-- `Parser.numberOrObjectDeclaration`: an identifier list, a colon, then a
number or object declaration dispatched on `constant`. -/
def numberOrObjectDeclaration (n : Nat) (s : PState) : R Unit :=
  (identifierList n s).bind fun _ s1 =>
    (accept n Token.COLON ("'" ++ Token.COLON ++ "' expected") s1).bind fun _ s2 =>
      if s2.token.code == Token.CONSTANT then numberDeclaration n s2
      else objectDeclaration n s2

/-- `Parser.typeDeclaration`. -/
def typeDeclaration (n : Nat) (s : PState) : R Unit :=
  (accept n Token.TYPE ("'" ++ Token.TYPE ++ "' expected") s).bind fun _ s1 =>
    (accept n Token.ID "identifier expected" s1).bind fun _ s2 =>
      (accept n Token.IS ("'" ++ Token.IS ++ "' expected") s2).bind fun _ s3 =>
        (typeDefinition n s3).bind fun _ s4 =>
          accept n Token.SEMICOLON ("'" ++ Token.SEMICOLON ++ "' expected") s4

/-- `Parser.parameterSpecification`. -/
def parameterSpecification (n : Nat) (s : PState) : R Unit :=
  (identifierList n s).bind fun _ s1 =>
    (accept n Token.COLON ("'" ++ Token.COLON ++ "' expected") s1).bind fun _ s2 =>
      (mode s2).bind fun _ s3 => name n s3

/-- The `while self.token.code == Token.SEMICOLON` loop of
`Parser.formalPart`. -/
def formalPartLoop : Nat → PState → R Unit
  | 0, s => .spin s
  | n + 1, s =>
    if s.token.code == Token.SEMICOLON then
      (advance s).bind fun _ s1 =>
        (parameterSpecification n s1).bind fun _ s2 => formalPartLoop n s2
    else .ok () s

/-- `Parser.formalPart`. -/
def formalPart (n : Nat) (s : PState) : R Unit :=
  (accept n Token.PARENTHESIS_OPEN ("'" ++ Token.PARENTHESIS_OPEN ++ "' expected") s).bind
    fun _ s1 =>
      (parameterSpecification n s1).bind fun _ s2 =>
        (formalPartLoop n s2).bind fun _ s3 =>
          accept n Token.PARENTHESIS_CLOSE ("'" ++ Token.PARENTHESIS_CLOSE ++ "' expected") s3

/-- `Parser.subprogramSpecification`: `procedure identifier [formalPart]`,
the formal part guard written against the literal `"("` in the source. -/
def subprogramSpecification (n : Nat) (s : PState) : R Unit :=
  (accept n Token.PROC "procedure expected" s).bind fun _ s1 =>
    (accept n Token.ID "identifier expected" s1).bind fun _ s2 =>
      if s2.token.code == "(" then formalPart n s2 else .ok () s2

mutual

/-- `Parser.subprogramBody`: five phases — specification with `is`,
declarative part, `begin`, statement sequence, `end [identifier] ;` — each
phase wrapped in `try`/`except RuntimeError` so that a failed phase is
caught and parsing resumes with the next phase. -/
def subprogramBody : Nat → PState → R Unit
  | 0, s => .spin s
  | n + 1, s =>
    (((subprogramSpecification n s).bind fun _ s1 =>
        accept n Token.IS ("'" ++ Token.IS ++ "' expected") s1).catch fun sc =>
          .ok () sc).bind fun _ s2 =>
      ((declarativePart n s2).catch fun sc => .ok () sc).bind fun _ s3 =>
        ((accept n Token.BEGIN ("'" ++ Token.BEGIN ++ "' expected") s3).catch fun sc =>
            .ok () sc).bind fun _ s4 =>
          ((sequenceOfStatements n s4).catch fun sc => .ok () sc).bind fun _ s5 =>
            ((accept n Token.END ("'" ++ Token.END ++ "' expected") s5).bind fun _ s6 =>
              (if s6.token.code == Token.ID then advance s6 else .ok () s6).bind fun _ s7 =>
                accept n Token.SEMICOLON "semicolon expected" s7).catch fun sc =>
              .ok () sc

/-- `Parser.declarativePart`: while the lookahead is a declaration handle,
parse one basic declaration, catching a `RuntimeError` and continuing the
loop. -/
def declarativePart : Nat → PState → R Unit
  | 0, s => .spin s
  | n + 1, s =>
    if Token.basicDeclarationHandles.contains s.token.code then
      ((basicDeclaration n s).catch fun sc => .ok () sc).bind fun _ s1 =>
        declarativePart n s1
    else .ok () s

/-- `Parser.basicDeclaration`: dispatch on identifier / `type` /
`procedure` (and silently do nothing otherwise, as the source does). -/
def basicDeclaration : Nat → PState → R Unit
  | 0, s => .spin s
  | n + 1, s =>
    if s.token.code == Token.ID then numberOrObjectDeclaration n s
    else if s.token.code == Token.TYPE then typeDeclaration n s
    else if s.token.code == Token.PROC then subprogramBody n s
    else .ok () s

end

/-- `Parser.parse`: recognize a whole subprogram body (the commented-out
EOF check of the source is not performed). -/
def parse (n : Nat) (s : PState) : R Unit := subprogramBody n s

/-- Construct a `Parser` over a source string and run `parse`: the
constructor requests the first lookahead token; a lexical error there
propagates out of the session uncaught. -/
def runParser (n : Nat) (source : String) : R Unit :=
  match GetNextToken source.toList with
  | .ok (t, cs) => parse n { chars := cs, diags := [], token := t }
  | .error (msg, cs) => .err { chars := cs, diags := [msg], token := Token.mk "EOF" none }

/-! ## Helper lemmas -/

/-- The code of the token `Scanner.GetNextToken` returns, when it returns
one. -/
def scannedCode (cs : List Char) : Option String :=
  match GetNextToken cs with
  | .ok (t, _) => some t.code
  | .error _ => none

theorem alphabeticToken_code_ne (cs : List Char) : (AlphabeticToken cs).1.code ≠ "\n" := by
  unfold AlphabeticToken
  dsimp only
  by_cases hr : reservedWords.contains (String.mk (cs.takeWhile fun c => !delimiters.contains c))
  · rw [if_pos hr]
    intro h
    dsimp only at h
    rw [h] at hr
    exact absurd hr (by decide)
  · rw [if_neg hr]
    intro h
    dsimp only at h
    exact absurd h (by decide)

theorem integerToken_code_ne (cs : List Char) : (IntegerToken cs).1.code ≠ "\n" := by
  unfold IntegerToken
  intro h
  dsimp only at h
  exact absurd h (by decide)

theorem operatorToken_code_ne (cs : List Char) (t : Token) (r : List Char)
    (h : OperatorToken cs = .ok (t, r)) : t.code ≠ "\n" := by
  match cs with
  | [] => simp [OperatorToken] at h
  | c :: cs =>
    unfold OperatorToken at h
    dsimp only at h
    by_cases h1 : (c == '.' && cs.head? == some '.') = true
    · rw [if_pos h1] at h
      injection h with h
      injection h with h _
      rw [← h]
      intro hbad
      exact absurd hbad (by decide)
    · rw [if_neg h1] at h
      by_cases h2 : singleCharOperators.contains c
      · rw [if_pos h2] at h
        injection h with h
        injection h with h _
        rw [← h]
        intro hbad
        dsimp only at hbad
        have hc : [c] = ['\n'] := congrArg String.data hbad
        injection hc with hc _
        rw [hc] at h2
        exact absurd h2 (by decide)
      · rw [if_neg h2] at h
        by_cases h3 : possiblyDoubleCharOperators.contains c
        · rw [if_pos h3] at h
          match cs with
          | [] =>
            dsimp only at h
            injection h with h
            injection h with h _
            rw [← h]
            intro hbad
            dsimp only at hbad
            have hc : [c] = ['\n'] := congrArg String.data hbad
            injection hc with hc _
            rw [hc] at h3
            exact absurd h3 (by decide)
          | c2 :: cs2 =>
            dsimp only at h
            by_cases h4 : doubleCharOperators.contains (String.mk [c, c2])
            · rw [if_pos h4] at h
              injection h with h
              injection h with h _
              rw [← h]
              intro hbad
              dsimp only at hbad
              have hc : [c, c2] = ['\n'] := congrArg String.data hbad
              injection hc with _ hc2
              injection hc2
            · rw [if_neg h4] at h
              injection h with h
              injection h with h _
              rw [← h]
              intro hbad
              dsimp only at hbad
              have hc : [c] = ['\n'] := congrArg String.data hbad
              injection hc with hc _
              rw [hc] at h3
              exact absurd h3 (by decide)
        · rw [if_neg h3] at h
          simp at h

theorem scanner_no_newline (cs : List Char) : scannedCode cs ≠ some "\n" := by
  unfold scannedCode GetNextToken
  cases hds : cs.dropWhile (fun c => ignoredCharacters.contains c) with
  | nil => simp
  | cons c rest =>
    dsimp only
    by_cases ha : c.isAlpha
    · rw [if_pos ha]
      dsimp only
      simpa using alphabeticToken_code_ne (c :: rest)
    · rw [if_neg ha]
      by_cases hd : c.isDigit
      · rw [if_pos hd]
        dsimp only
        simpa using integerToken_code_ne (c :: rest)
      · rw [if_neg hd]
        cases hop : OperatorToken (c :: rest) with
        | ok p =>
          dsimp only
          simpa using operatorToken_code_ne (c :: rest) p.1 p.2 (by rw [hop])
        | error e => simp

theorem takeWhile_all_append {p : Char → Bool} :
    ∀ pre : List Char, (∀ c ∈ pre, p c = true) → ∀ d : Char, p d = false →
      ∀ rest : List Char,
        (pre ++ d :: rest).takeWhile p = pre ∧ (pre ++ d :: rest).dropWhile p = d :: rest := by
  intro pre
  induction pre with
  | nil =>
    intro _ d hd rest
    constructor
    · rw [List.nil_append, List.takeWhile_cons, if_neg (by rw [hd]; decide)]
    · rw [List.nil_append, List.dropWhile_cons, if_neg (by rw [hd]; decide)]
  | cons a pre ih =>
    intro hall d hd rest
    have ha : p a = true := hall a (List.mem_cons_self a pre)
    obtain ⟨ht, hdp⟩ := ih (fun c hc => hall c (List.mem_cons_of_mem a hc)) d hd rest
    constructor
    · rw [List.cons_append, List.takeWhile_cons, if_pos ha, ht]
    · rw [List.cons_append, List.dropWhile_cons, if_pos ha, hdp]

set_option maxRecDepth 65536

theorem discardLoop_eof_spin (n : Nat) (d : List String) :
    discardLoop n { chars := [], diags := d, token := Token.mk "EOF" none } =
      .spin { chars := [], diags := d, token := Token.mk "EOF" none } := by
  induction n with
  | zero => rfl
  | succ n ih => exact ih

/-- C1 (claim refuted by the code): `Scanner.GetNextToken` includes the
newline character in its `ignoredCharacters` (src/Scanner.py line 94), so a
newline is skipped exactly like a space: the input `"\n"` yields the EOF
token and `"\nx"` yields the identifier token `x`; moreover no input at
all makes `GetNextToken` return a token whose code is `Token.NEWLINE`. -/
theorem getNextToken_skips_newline :
    GetNextToken ['\n'] = .ok (Token.mk "EOF" none, []) ∧
    GetNextToken ['\n', 'x'] = .ok (Token.mk "id" (some "x"), []) ∧
    ∀ cs : List Char, (scannedCode cs == some Token.NEWLINE) = false :=
  ⟨rfl, rfl, fun cs => beq_eq_false_iff_ne.mpr (scanner_no_newline cs)⟩

/-- C2 (claim refuted by the code): the phrase-level discard routine does
not terminate.  Invoked with the character stream exhausted, it spins
forever (`GetNextToken` returns the EOF token over and over and the loop
waits for a newline token that never comes, whatever the fuel); and the
whole session on the input `procedure Foo`, whose one syntax error
triggers discard at end of input, never terminates. -/
theorem discard_tokens_diverges :
    (∀ (n : Nat) (d : List String) (t : Token),
        (discard_tokens n { chars := [], diags := d, token := t }).isSpin = true) ∧
    (runParser 300 "procedure Foo").isSpin = true := by
  constructor
  · intro n d t
    cases n with
    | zero => rfl
    | succ n =>
      show (discardLoop n { chars := [], diags := d, token := Token.mk "EOF" none }).isSpin = true
      rw [discardLoop_eof_spin]
      rfl
  · rfl

/-- C8: the program `procedure Foo is begin null; end Foo;` is accepted
with zero diagnostics: the parse returns normally, the diagnostic sink
stays empty and the whole input is consumed. -/
theorem grammar_accepts_minimal_program :
    runParser 200 "procedure Foo is begin null; end Foo;" =
      .ok () { chars := [], diags := [], token := Token.mk "EOF" none } := rfl

/-- C6 (claim refuted by the code): on
`procedure Foo is X : ; begin null; end Foo;` exactly one syntax
diagnostic is reported (for the malformed declaration), but the discard
that follows never terminates — there are no newline tokens — so parsing
never resumes at `begin null; end Foo;`. -/
theorem declaration_error_leaves_session_stuck :
    (runParser 300 "procedure Foo is X : ; begin null; end Foo;").isSpin = true ∧
    (runParser 300 "procedure Foo is X : ; begin null; end Foo;").state.diags =
      ["expected either an opening parenthesis, an array, a range, or an identifier but ; was detected"] :=
  ⟨rfl, rfl⟩

/-- C3 counterexample: a lexical error does not abort the session.  On
`procedure Foo is begin null @; null; end Foo;` the stray `@` is reported
once, the `RuntimeError` it raises is caught by `Parser.statement`'s bare
`except`, and the session then parses the rest and returns normally. -/
theorem lexical_error_session_continues :
    runParser 300 "procedure Foo is begin null @; null; end Foo;" =
      .ok () { chars := [], diags := ["Unexpected symbol '@'"], token := Token.mk "EOF" none } := rfl

/-- C3 amended: a character beginning no token makes the Lexer call report
the error once through the sink and fail; the session aborts only when the
failure escapes every handler, as it does for an input whose very first
token is malformed (the constructor's token fetch has no handler). -/
theorem lexical_error_reported_once :
    (∀ cs : List Char, GetNextToken ('@' :: cs) = .error ("Unexpected symbol '@'", cs)) ∧
    runParser 300 "@" =
      .err { chars := [], diags := ["Unexpected symbol '@'"], token := Token.mk "EOF" none } := by
  constructor
  · intro cs
    unfold GetNextToken
    rw [List.dropWhile_cons, if_neg (by decide)]
    dsimp only
    rw [if_neg (by decide), if_neg (by decide)]
    unfold OperatorToken
    dsimp only
    rw [if_neg (by intro hcontra; rw [Bool.and_eq_true] at hcontra; exact absurd hcontra.1 (by decide)),
        if_neg (by decide), if_neg (by decide)]
    rfl
  · rfl

/-- C4 (claim refuted by the code): the multiplying-operator loop of
`Parser.term` is dead code — its guard compares the Token object itself
against the operator code strings, which is always false — so `term` never
consumes a multiplying operator: on the token stream of `a * b;` it
consumes only the factor `a`, leaving `*` as the lookahead and ` b;`
unread. -/
theorem term_multiplying_loop_dead :
    (∀ (n : Nat) (s : PState), termLoop (n + 1) s = .ok () s) ∧
    term 100 { chars := "* b;".toList, diags := [], token := Token.mk "id" (some "a") } =
      .ok () { chars := " b;".toList, diags := [], token := Token.mk "*" none } := by
  constructor
  · intro n s
    simp [termLoop, pyEqTokenString]
  · rfl

/-- C5 counterexample: `not a ** b;` is not accepted as one factor — after
`not` the `**` part is never parsed, so `factor` stops with `**` as the
lookahead and ` b;` unread. -/
theorem factor_not_power_counterexample :
    factor 100 { chars := " a ** b;".toList, diags := [], token := Token.mk "not" none } =
      .ok () { chars := " b;".toList, diags := [], token := Token.mk "**" none } := rfl

/-- C5 amended: `Parser.factor` recognizes either `not` followed by a
primary, or a primary optionally followed by `**` and a primary — the two
optional parts are exclusive, not independent: `not a;` and `a ** b;` are
each one whole factor (lookahead `;`), while `not a ** b;` stops after
`a` with `**` unconsumed. -/
theorem factor_not_or_power :
    factor 100 { chars := " a;".toList, diags := [], token := Token.mk "not" none } =
      .ok () { chars := [], diags := [], token := Token.mk ";" none } ∧
    factor 100 { chars := " ** b;".toList, diags := [], token := Token.mk "id" (some "a") } =
      .ok () { chars := [], diags := [], token := Token.mk ";" none } ∧
    factor 100 { chars := " a ** b;".toList, diags := [], token := Token.mk "not" none } =
      .ok () { chars := " b;".toList, diags := [], token := Token.mk "**" none } :=
  ⟨rfl, rfl, rfl⟩

/-- C7: `Parser.accept` treats a newline lookahead as a hard mismatch when
the expected code is line-terminating (`is`, `loop`, `;`): it invokes the
fatal-error protocol directly, without skipping the newline; for any
non-line-terminating expected code it instead proceeds with `acceptTail`,
which first skips newline tokens and only then compares the lookahead. -/
theorem accept_newline_is_hard_mismatch (n : Nat) (expected error_message : String)
    (s : PState) :
    (s.token.code = Token.NEWLINE → line_terminating_tokens.contains expected = true →
      accept (n + 1) expected error_message s =
        fatalError n (mkAcceptMsg expected s.token) s) ∧
    (line_terminating_tokens.contains expected = false →
      accept (n + 1) expected error_message s =
        acceptTail n expected (mkAcceptMsg expected s.token) s) := by
  constructor
  · intro h1 h2
    show (if (s.token.code == Token.NEWLINE && line_terminating_tokens.contains expected) = true
          then fatalError n (mkAcceptMsg expected s.token) s
          else acceptTail n expected (mkAcceptMsg expected s.token) s) =
        fatalError n (mkAcceptMsg expected s.token) s
    rw [if_pos (by rw [h1, h2]; rfl)]
  · intro h2
    show (if (s.token.code == Token.NEWLINE && line_terminating_tokens.contains expected) = true
          then fatalError n (mkAcceptMsg expected s.token) s
          else acceptTail n expected (mkAcceptMsg expected s.token) s) =
        acceptTail n expected (mkAcceptMsg expected s.token) s
    rw [if_neg (by rw [h2, Bool.and_false]; decide)]

/-- Witness for C7 at a concrete state whose lookahead is a newline token:
expecting `;` goes straight to the fatal-error protocol, while expecting
an identifier goes to the skip-then-compare path. -/
theorem accept_newline_is_hard_mismatch_witness :
    accept 5 Token.SEMICOLON "m"
        { chars := "x".toList, diags := [], token := Token.mk "\n" none } =
      fatalError 4 (mkAcceptMsg Token.SEMICOLON (Token.mk "\n" none))
        { chars := "x".toList, diags := [], token := Token.mk "\n" none } ∧
    accept 5 Token.ID "m"
        { chars := "x".toList, diags := [], token := Token.mk "\n" none } =
      acceptTail 4 Token.ID (mkAcceptMsg Token.ID (Token.mk "\n" none))
        { chars := "x".toList, diags := [], token := Token.mk "\n" none } :=
  ⟨(accept_newline_is_hard_mismatch 4 Token.SEMICOLON "m" _).1 rfl (by decide),
   (accept_newline_is_hard_mismatch 4 Token.ID "m" _).2 (by decide)⟩

/-- C9: maximal munch.  For a letter-led input whose further characters up
to the first delimiter are all non-delimiters, `GetNextToken` returns one
token holding exactly the text before the delimiter, classified as the
reserved word itself when the whole text is one, and as an identifier
otherwise; the delimiter is left unconsumed. -/
theorem alphabetic_maximal_munch (c0 : Char) (pre : List Char) (d : Char)
    (rest : List Char) (h0 : c0.isAlpha = true)
    (h1 : ∀ c ∈ c0 :: pre, delimiters.contains c = false)
    (h2 : delimiters.contains d = true) :
    GetNextToken (c0 :: pre ++ d :: rest) =
      .ok
        (if reservedWords.contains (String.mk (c0 :: pre)) then
          Token.mk (String.mk (c0 :: pre)) none
        else Token.mk "id" (some (String.mk (c0 :: pre))),
        d :: rest) := by
  have hig : ignoredCharacters.contains c0 = false := by
    have hc0 : delimiters.contains c0 = false := h1 c0 (List.mem_cons_self c0 pre)
    cases hin : ignoredCharacters.contains c0 with
    | false => rfl
    | true =>
      exfalso
      have hmem : c0 ∈ ignoredCharacters := by simpa using hin
      have hdel : delimiters.contains c0 = true := by
        simp only [ignoredCharacters, List.mem_cons, List.not_mem_nil, or_false] at hmem
        rcases hmem with h | h | h | h | h <;> rw [h] <;> decide
      rw [hdel] at hc0
      exact absurd hc0 (by decide)
  have hp : ∀ c ∈ c0 :: pre, (fun c => !delimiters.contains c) c = true := by
    intro c hc
    show (!delimiters.contains c) = true
    rw [h1 c hc]
    rfl
  have hpd : (fun c => !delimiters.contains c) d = false := by
    show (!delimiters.contains d) = false
    rw [h2]
    rfl
  obtain ⟨htake, hdrop⟩ := takeWhile_all_append (c0 :: pre) hp d hpd rest
  unfold GetNextToken
  rw [List.cons_append, List.dropWhile_cons, if_neg (by rw [hig]; decide)]
  dsimp only
  rw [if_pos h0]
  unfold AlphabeticToken
  dsimp only
  rw [← List.cons_append, htake, hdrop]
  split <;> rfl

/-- Witness for C9: the input `beginx ` yields one identifier token with
lexeme `beginx`, not the reserved word `begin` followed by `x`. -/
theorem alphabetic_maximal_munch_witness :
    GetNextToken "beginx ".toList = .ok (Token.mk "id" (some "beginx"), [' ']) := by
  have h := alphabetic_maximal_munch 'b' ['e', 'g', 'i', 'n', 'x'] ' ' []
    rfl (by decide) rfl
  rw [if_neg (by decide)] at h
  exact h

/-- C10: the `error_message` argument of `Parser.accept` has no effect:
the method overwrites it with its own message before any use, so two calls
differing only in that argument return identical results in every
state. -/
theorem accept_ignores_error_message (n : Nat) (expected em1 em2 : String) (s : PState) :
    accept n expected em1 s = accept n expected em2 s := by
  cases n <;> rfl
